import Mathlib

/-!
Shallow embedding of bskyServer.ts (wiki-Bird/bsky-spinoff).

The source is a single-file RSS-to-Bluesky bot.  Pure helpers
(truncateTitle, getRandomInterval) are translated directly; the
effectful pipeline (processRSSFeed and the functions it calls) is
embedded as a trace-producing function: every external interaction
(feed fetch, page fetch, image download, encode, upload, login, post,
store save) becomes an element of an event trace, and the outcomes of
the external world (network success or failure, login success, and so
on) are inputs supplied through an environment record.  External
library functions (the html-entities decode, URL resolution, and the
sharp image library) are abstract function parameters.
-/

set_option maxRecDepth 20000

/-- JS string whitespace for String.prototype.trim: tab, LF, VT, FF,
CR, space, NBSP, line and paragraph separators, BOM. -/
def isJsWhitespace (c : Char) : Bool :=
  c.toNat = 9 || c.toNat = 10 || c.toNat = 11 || c.toNat = 12 ||
  c.toNat = 13 || c.toNat = 32 || c.toNat = 160 || c.toNat = 8232 ||
  c.toNat = 8233 || c.toNat = 65279

/-- JS String.prototype.startsWith. -/
def strStartsWith (s pre : String) : Bool :=
  pre.data.isPrefixOf s.data

/-- JS trim: drop leading and trailing whitespace. -/
def jsTrim (s : String) : String :=
  String.mk (((s.data.dropWhile isJsWhitespace).reverse.dropWhile isJsWhitespace).reverse)

/-- Scan for the first gt character; on success return the remainder
after it.  Models one match attempt of the regex tag body. -/
def dropThroughGt : List Char → Option (List Char)
  | [] => none
  | '>' :: rest => some rest
  | _ :: rest => dropThroughGt rest

/-- Fuelled scan for the global replace of /<[^>]*>/ by the empty
string: from each lt character, if a gt follows, the span through the
first gt is removed.  One unit of fuel is spent per step, and each
step consumes at least one character, so fuel = length suffices.  When
a lt has no later gt, no further match is possible anywhere, so the
remainder is kept as is. -/
def stripTagsAux : Nat → List Char → List Char
  | 0, l => l
  | _ + 1, [] => []
  | fuel + 1, '<' :: rest =>
    match dropThroughGt rest with
    | some rest2 => stripTagsAux fuel rest2
    | none => '<' :: rest
  | fuel + 1, c :: rest => c :: stripTagsAux fuel rest

/-- Remove HTML tags the way title.replace of the tag regex with the
empty string does (bskyServer.ts line 72). -/
def stripTags (s : String) : String :=
  String.mk (stripTagsAux s.data.length s.data)

/-- JS String.prototype.substring with start 0: take the first n code
units (a negative end index is clamped to 0 before the call site via
Int.toNat). -/
def strTake (s : String) (n : Nat) : String :=
  String.mk (s.data.take n)

/-- truncateTitle from bskyServer.ts lines 67 to 80.  The decode
function of the html-entities package is an abstract parameter.
maxLength = 300 - urlLength - 2 - 3; the title is tag-stripped,
trimmed and entity-decoded; if within maxLength it is returned as is,
else the first maxLength characters are trimmed and three dots are
appended. -/
def truncateTitle (decode : String → String) (title : String) (urlLength : Nat) : String :=
  let maxLength : Int := 300 - (urlLength : Int) - 2 - 3
  let decodedTitle := decode (jsTrim (stripTags title))
  if (decodedTitle.length : Int) ≤ maxLength then decodedTitle
  else jsTrim (strTake decodedTitle maxLength.toNat) ++ "..."

/-- Lower bound of the random interval in minutes (bskyServer.ts line 61). -/
def minMinutes : Int := 30

/-- Upper bound of the random interval in minutes (bskyServer.ts line 62). -/
def maxMinutes : Int := 60

/-- getRandomInterval from bskyServer.ts lines 60 to 65:
floor of (r * (max - min + 1) + min) minutes, in milliseconds, where r
is the Math.random sample in the half-open unit interval. -/
def getRandomInterval (r : ℚ) : Int :=
  ⌊r * ((maxMinutes : ℚ) - (minMinutes : ℚ) + 1) + (minMinutes : ℚ)⌋ * 60 * 1000

/-- One feed item as consumed by processRSSFeed: entry.id, entry.title
(already normalized to plain text by the rss parser), entry.link. -/
structure FeedEntry where
  id : String
  title : String
  link : String
deriving DecidableEq

/-- The persisted cache record (bskyServer.ts lines 55 to 58). -/
structure PostedItems where
  guids : List String
  lastFetchTime : Int
deriving DecidableEq

/-- Observable external interactions of one pipeline run, in order. -/
inductive Event where
  | feedFetch
  | pageFetch (url : String)
  | imageDownload (url : String)
  | imageEncode
  | uploadAttempt
  | login
  | postAttempt (text : String) (cardTitle : String) (thumb : Option String)
  | save (guids : List String) (lastFetchTime : Int)
deriving DecidableEq

deriving instance DecidableEq for Except

/-- Outcomes of the external world for the processing of one feed
entry.  scrape is the result of the page fetch plus cheerio image
chain: error when axios.get or parsing threw, otherwise the image URL
the selector chain produced (none when every selector came up empty).
download says whether downloadAndProcessImage returned a buffer.
upload1, loginOk, upload2 are the outcomes of the first uploadBlob
attempt, of agent.login, and of the retried uploadBlob.  post1 and
postLoginOk likewise for agent.post and its login; the outcome of the
retried post is swallowed by the outer catch (lines 207 to 209) and
has no observable effect beyond logging, so it is not modelled.
blobRef is the opaque reference string the upload service returns. -/
structure EntryEnv where
  scrape : Except Unit (Option String)
  download : Bool
  upload1 : Bool
  loginOk : Bool
  upload2 : Bool
  post1 : Bool
  postLoginOk : Bool
  blobRef : String
deriving DecidableEq

/-- Abstract external library functions: decode from html-entities,
and resolve rel base for new URL(rel, base).toString(). -/
structure ExtLib where
  decode : String → String
  resolve : String → String → String

/-- The hard-coded default thumbnail URL (bskyServer.ts line 262). -/
def defaultImageUrl : String :=
  "https://cdn.bsky.app/img/feed_thumbnail/plain/did:plc:3hq7i54gjltbsl3pt5d37s3a/bafkreiczlei3r5fzmie2fwlsfgyzmotx4c4gho25rt6qoya76z3sfiudme@jpeg"

/-- uploadImageToBluesky (bskyServer.ts lines 118 to 152): try
uploadBlob; on failure login and retry uploadBlob once; any failure of
the login or of the retry reaches the outer catch, which returns
null.  Result is the trace of attempts plus the optional blob
reference. -/
def uploadImageToBluesky (env : EntryEnv) : List Event × Option String :=
  if env.upload1 then ([Event.uploadAttempt], some env.blobRef)
  else if env.loginOk then
    if env.upload2 then
      ([Event.uploadAttempt, Event.login, Event.uploadAttempt], some env.blobRef)
    else
      ([Event.uploadAttempt, Event.login, Event.uploadAttempt], none)
  else ([Event.uploadAttempt, Event.login], none)

/-- postToBluesky (bskyServer.ts lines 159 to 210): the post text is
the truncated title, the card title prefixes it, the embed carries the
optional thumb; try agent.post, on failure login and retry once; every
error is swallowed by the outer catch, so the function never throws. -/
def postToBluesky (decode : String → String) (title url : String) (thumb : Option String) (env : EntryEnv) : List Event :=
  let processedTitle := truncateTitle decode title url.length
  let postText := processedTitle
  let cardTitle := "The Spinoff → " ++ processedTitle
  if env.post1 then [Event.postAttempt postText cardTitle thumb]
  else if env.postLoginOk then
    [Event.postAttempt postText cardTitle thumb, Event.login,
     Event.postAttempt postText cardTitle thumb]
  else [Event.postAttempt postText cardTitle thumb, Event.login]

/-- savePostedItems (bskyServer.ts lines 155 to 157) as a trace event:
the whole record is serialized and overwritten. -/
def savePostedItems (items : PostedItems) : Event :=
  Event.save items.guids items.lastFetchTime

/-- The per-entry enrich, download and upload stage of the loop body
(bskyServer.ts lines 248 to 285): fetch the page; on success pick the
image URL from the selector chain or fall back to the default; resolve
a relative URL against the entry link; download and re-encode; if a
buffer came back, upload it.  Any scrape error is caught and leaves
thumb undefined.  Result is the trace plus the optional thumb. -/
def processEntry (ext : ExtLib) (env : EntryEnv) (e : FeedEntry) : List Event × Option String :=
  match env.scrape with
  | Except.error _ => ([Event.pageFetch e.link], none)
  | Except.ok chain =>
    let imageUrl := match chain with
      | some u => u
      | none => defaultImageUrl
    let fullImageUrl :=
      if strStartsWith imageUrl ("http") then imageUrl else ext.resolve imageUrl e.link
    if env.download then
      let up := uploadImageToBluesky env
      ([Event.pageFetch e.link, Event.imageDownload fullImageUrl, Event.imageEncode] ++ up.1,
       up.2)
    else
      ([Event.pageFetch e.link, Event.imageDownload fullImageUrl], none)

/-- The entry loop of processRSSFeed (bskyServer.ts lines 237 to 297):
skip entries whose guid is already recorded, otherwise enrich, post,
and append the guid; the pacing sleep between posts has no observable
effect on the trace.  The environment is indexed by the position of
the entry in the feed.  Result is the trace plus the final in-memory
guid list. -/
def runEntries (ext : ExtLib) (envs : Nat → EntryEnv) : Nat → List FeedEntry → List String → List Event × List String
  | _, [], guids => ([], guids)
  | i, e :: rest, guids =>
    if guids.contains e.id then runEntries ext envs (i + 1) rest guids
    else
      let env := envs i
      let p := processEntry ext env e
      let postEv := postToBluesky ext.decode e.title e.link p.2 env
      let r := runEntries ext envs (i + 1) rest (guids ++ [e.id])
      (p.1 ++ postEv ++ r.1, r.2)

/-- processRSSFeed (bskyServer.ts lines 212 to 308).  Inputs: the
loaded cache record, the current time, the sampled random interval,
and the outcome of the feed fetch (error when parseURL threw, ok none
when feed.items was missing, ok entries otherwise).  If the elapsed
time is under the interval the run ends with no side effects.
Otherwise lastFetchTime is stamped in memory, the feed is fetched, the
entries are processed, and the record is saved once after the loop; a
fetch failure or missing items skips the save, losing the stamped
lastFetchTime.  Result is the event trace of the run. -/
def processRSSFeed (ext : ExtLib) (envs : Nat → EntryEnv)
    (fetchRes : Except Unit (Option (List FeedEntry)))
    (currentTime interval : Int) (postedItems : PostedItems) : List Event :=
  if currentTime - postedItems.lastFetchTime < interval then []
  else
    match fetchRes with
    | Except.error _ => [Event.feedFetch]
    | Except.ok none => [Event.feedFetch]
    | Except.ok (some entries) =>
      let run := runEntries ext envs 0 entries postedItems.guids
      Event.feedFetch :: run.1 ++ [savePostedItems ⟨run.2, currentTime⟩]

/-- The last save event of a trace, if any. -/
def lastSave : List Event → Option PostedItems
  | [] => none
  | Event.save g t :: rest =>
    match lastSave rest with
    | some p => some p
    | none => some ⟨g, t⟩
  | _ :: rest => lastSave rest

/-- The durable store after a run: the payload of the last save event,
or the prior file content when the run never saved. -/
def durable (init : PostedItems) (tr : List Event) : PostedItems :=
  (lastSave tr).getD init

/-- Recognizer for save events. -/
def isSave : Event → Bool
  | Event.save _ _ => true
  | _ => false

/-- Recognizer for page fetch events (the start of the enrichment of
one fresh entry). -/
def isPageFetch : Event → Bool
  | Event.pageFetch _ => true
  | _ => false

/-- Recognizer for post attempts. -/
def isPostAttempt : Event → Bool
  | Event.postAttempt _ _ _ => true
  | _ => false

/-- Formalization of the persistence discipline asserted by the spec:
after a post attempt, a save must occur before the processing of the
next entry begins (its page fetch), and a pending post must be
followed by a save before the end of the run.  The boolean argument
records whether a post attempt is pending an unsaved store. -/
def savedBeforeNextEntry : Bool → List Event → Bool
  | pending, [] => !pending
  | _, Event.postAttempt _ _ _ :: rest => savedBeforeNextEntry true rest
  | _, Event.save _ _ :: rest => savedBeforeNextEntry false rest
  | pending, Event.pageFetch _ :: rest =>
    if pending then false else savedBeforeNextEntry false rest
  | pending, _ :: rest => savedBeforeNextEntry pending rest

/-- Abstraction of the sharp image library for
downloadAndProcessImage: byte sizes before and after the resize step
and the png encode step.  The png encode of the source takes no
quality argument. -/
structure SharpOps where
  resize : Nat → Nat
  pngEncode : Nat → Nat

/-- Calls made to the image library, with their arguments as written
in the source: resize(1000, 1000, fit inside, withoutEnlargement) and
png() with no quality option. -/
inductive CompressEvent where
  | resizeCall (w h : Nat) (fitInside withoutEnlargement : Bool)
  | encodeCall (quality : Option Nat)
deriving DecidableEq

/-- Recognizer for encode calls. -/
def isEncode : CompressEvent → Bool
  | CompressEvent.encodeCall _ => true
  | _ => false

/-- downloadAndProcessImage (bskyServer.ts lines 94 to 116) on a
successfully downloaded buffer of inputLen bytes: one
resize(1000, 1000) with fit inside and withoutEnlargement, then one
png encode, then toBuffer.  There is no loop and no size check; the
encoded buffer is returned as is. -/
def downloadAndProcessImage (ops : SharpOps) (inputLen : Nat) : List CompressEvent × Nat :=
  let resized := ops.resize inputLen
  let out := ops.pngEncode resized
  ([CompressEvent.resizeCall 1000 1000 true true, CompressEvent.encodeCall none], out)

/-- Steps of the quality ladder described by the spec, given the
encoded size at each quality: while the size exceeds 900000 and the
quality exceeds 40, decrement the quality by 5 and re-encode.  Fuel
bounds the recursion; (100 - 40) / 5 + 1 = 13 units are enough from
quality 100. -/
def ladderFrom (encodeAt : Nat → Nat) : Nat → Nat → List CompressEvent
  | _, 0 => []
  | q, fuel + 1 =>
    if encodeAt q > 900000 ∧ q > 40 then
      CompressEvent.encodeCall (some (q - 5)) :: ladderFrom encodeAt (q - 5) fuel
    else []

/-- The compression algorithm the spec describes, as a comparand for
downloadAndProcessImage: encode at quality 100, then walk the quality
ladder down to 40 while the size exceeds 900000. -/
def compressQualityLadder (encodeAt : Nat → Nat) : List CompressEvent :=
  CompressEvent.encodeCall (some 100) :: ladderFrom encodeAt 100 13

/-- Identity external library: decode and URL resolution that return
their first argument; used by the concrete scenarios. -/
def extId : ExtLib :=
  ⟨fun s => s, fun u _ => u⟩

/-- Scenario environment in which every external call succeeds. -/
def envAllOk : EntryEnv :=
  ⟨Except.ok (some "http://img"), true, true, true, true, true, true, "blob1"⟩

/-- Scenario environment in which both post attempts and the login of
the post flow fail. -/
def envPostFail : EntryEnv :=
  ⟨Except.ok (some "http://img"), true, true, true, true, false, false, "blob1"⟩

/-- Scenario environment in which the page scrape throws. -/
def envScrapeErr : EntryEnv :=
  ⟨Except.error (), true, true, true, true, true, true, "blob1"⟩

/-- Scenario entry a1. -/
def entryA1 : FeedEntry :=
  ⟨"a1", "t1", "http://u1"⟩

/-- Scenario entry a2. -/
def entryA2 : FeedEntry :=
  ⟨"a2", "t2", "http://u2"⟩

/-- A nine-entry feed in which every entry is fresh. -/
def entries9 : List FeedEntry :=
  [⟨"a1", "t", "http://u"⟩, ⟨"a2", "t", "http://u"⟩, ⟨"a3", "t", "http://u"⟩,
   ⟨"a4", "t", "http://u"⟩, ⟨"a5", "t", "http://u"⟩, ⟨"a6", "t", "http://u"⟩,
   ⟨"a7", "t", "http://u"⟩, ⟨"a8", "t", "http://u"⟩, ⟨"a9", "t", "http://u"⟩]

/-- A 300-character title with no tags, entities or whitespace. -/
def bigTitle : String :=
  String.mk (List.replicate 300 'a')

/-- Environment in which the first upload attempt fails, the login
succeeds, and the retried upload fails again. -/
def envUploadFail : EntryEnv :=
  ⟨Except.ok (some "http://img"), true, false, true, false, true, true, "blob1"⟩

theorem strMk_length (l : List Char) : (String.mk l).length = l.length := rfl

theorem jsTrim_length_le (s : String) : (jsTrim s).length ≤ s.length := by
  simp only [jsTrim, strMk_length, String.length]
  calc (((s.data.dropWhile isJsWhitespace).reverse.dropWhile isJsWhitespace).reverse).length
      = ((s.data.dropWhile isJsWhitespace).reverse.dropWhile isJsWhitespace).length := by
        simp
    _ ≤ (s.data.dropWhile isJsWhitespace).reverse.length :=
        (List.dropWhile_sublist _).length_le
    _ = (s.data.dropWhile isJsWhitespace).length := by simp
    _ ≤ s.data.length := (List.dropWhile_sublist _).length_le

theorem strTake_length_le (s : String) (n : Nat) : (strTake s n).length ≤ n := by
  simp only [strTake, strMk_length, List.length_take]
  exact Nat.min_le_left _ _

/-- Claim C4 as stated is false: on a 300-character title with no
markup, entities or spaces and a 42-character URL, truncateTitle
returns 253 characters plus a three-character dot sequence, 256
characters in total, which exceeds the claimed bound of
300 - 42 - 4 = 254 (the source reserves 2 + 3 characters and appends
three dots, not two). -/
theorem c4_counterexample :
    ¬ ((truncateTitle (fun s => s) bigTitle 42).length ≤ 300 - 42 - 4) := by
  decide

/-- Claim C4, amended: for urlLength at most 295, truncateTitle
returns the entity-decoded, markup-stripped, trimmed title unchanged
when its length is within the budget 300 - urlLength - 5; otherwise it
returns the trimmed first 300 - urlLength - 5 characters of it with a
three-character dot ellipsis appended; in every case the result length
is at most 300 - urlLength - 2. -/
theorem c4_truncateTitle (decode : String → String) (title : String) (u : Nat)
    (hu : u ≤ 295) :
    ((decode (jsTrim (stripTags title))).length ≤ 295 - u →
      truncateTitle decode title u = decode (jsTrim (stripTags title))) ∧
    (295 - u < (decode (jsTrim (stripTags title))).length →
      truncateTitle decode title u =
        jsTrim (strTake (decode (jsTrim (stripTags title))) (295 - u)) ++ "...") ∧
    (truncateTitle decode title u).length ≤ 300 - u - 2 := by
  have hcast : ((300 : Int) - (u : Int) - 2 - 3).toNat = 295 - u := by omega
  refine ⟨?_, ?_, ?_⟩
  · intro h
    simp only [truncateTitle]
    rw [if_pos (by omega)]
  · intro h
    simp only [truncateTitle]
    rw [if_neg (by omega), hcast]
  · by_cases h : (decode (jsTrim (stripTags title))).length ≤ 295 - u
    · simp only [truncateTitle]
      rw [if_pos (by omega)]
      omega
    · simp only [truncateTitle]
      rw [if_neg (by omega), hcast]
      have h1 := jsTrim_length_le (strTake (decode (jsTrim (stripTags title))) (295 - u))
      have h2 := strTake_length_le (decode (jsTrim (stripTags title))) (295 - u)
      rw [String.length_append]
      have h3 : ("..." : String).length = 3 := rfl
      omega

/-- Witness for c4_truncateTitle at a concrete under-budget input. -/
theorem c4_truncateTitle_witness :
    (42 ≤ 295) ∧ truncateTitle (fun s => s) "hello" 42 = "hello" :=
  ⟨by decide, (c4_truncateTitle (fun s => s) "hello" 42 (by decide)).1 (by decide)⟩

/-- Claim C3 as stated is false: with an encoder whose output is
always 1000000 bytes, the algorithm the claim describes performs 13
encode calls (quality 100 then the ladder down to 40), while
downloadAndProcessImage performs exactly one encode call with no
quality argument and returns the 1000000-byte buffer from a
10-byte input, exceeding the input size. -/
theorem c3_counterexample :
    (downloadAndProcessImage ⟨fun n => n, fun _ => 1000000⟩ 10).1.countP isEncode = 1 ∧
    (compressQualityLadder (fun _ => 1000000)).countP isEncode = 13 ∧
    (downloadAndProcessImage ⟨fun n => n, fun _ => 1000000⟩ 10).2 = 1000000 ∧
    ¬ ((downloadAndProcessImage ⟨fun n => n, fun _ => 1000000⟩ 10).2 ≤ 10) := by
  decide

/-- Claim C3, amended: downloadAndProcessImage performs exactly one
resize call, with a 1000 by 1000 bounding box, fit inside and without
enlargement, and exactly one png encode call with no quality
parameter; the returned byte count is whatever that single encode
produces, with no 900000-byte ceiling check and no guarantee of being
at most the input size. -/
theorem c3_downloadAndProcessImage (ops : SharpOps) (n : Nat) :
    downloadAndProcessImage ops n =
      ([CompressEvent.resizeCall 1000 1000 true true, CompressEvent.encodeCall none],
        ops.pngEncode (ops.resize n)) ∧
    (downloadAndProcessImage ops n).1.countP isEncode = 1 :=
  ⟨rfl, rfl⟩

theorem getRandomInterval_lb (r : ℚ) (h0 : 0 ≤ r) :
    minMinutes * 60 * 1000 ≤ getRandomInterval r := by
  simp only [getRandomInterval, minMinutes, maxMinutes]
  have h31 : ((60 : Int) : ℚ) - ((30 : Int) : ℚ) + 1 = 31 := by norm_num
  have h30 : ((30 : Int) : ℚ) = 30 := by norm_num
  rw [h31, h30]
  have hf : (30 : Int) ≤ ⌊r * (31 : ℚ) + (30 : ℚ)⌋ := by
    rw [Int.le_floor]
    push_cast
    nlinarith
  omega

theorem getRandomInterval_ub (r : ℚ) (h1 : r < 1) :
    getRandomInterval r ≤ maxMinutes * 60 * 1000 := by
  simp only [getRandomInterval, minMinutes, maxMinutes]
  have h31 : ((60 : Int) : ℚ) - ((30 : Int) : ℚ) + 1 = 31 := by norm_num
  have h30 : ((30 : Int) : ℚ) = 30 := by norm_num
  rw [h31, h30]
  have hf : ⌊r * (31 : ℚ) + (30 : ℚ)⌋ < 61 := by
    rw [Int.floor_lt]
    push_cast
    nlinarith
  omega

/-- Claim C5 as stated is false: the threshold can never be 120
minutes, because for every random sample in the unit interval the
sampled interval is at most 60 minutes (the source draws from 30 to
60 minutes, not 30 to 120). -/
theorem c5_counterexample :
    ¬ ∃ r : ℚ, 0 ≤ r ∧ r < 1 ∧ getRandomInterval r = 120 * 60 * 1000 := by
  rintro ⟨r, _, h1, he⟩
  have hub := getRandomInterval_ub r h1
  rw [he] at hub
  simp only [maxMinutes] at hub
  omega

/-- Claim C5, amended: the gating threshold is drawn uniformly from 30
to 60 whole minutes; given lastFetchTime t0 and a trigger at t0 plus
delta, the run is an empty trace with the durable store untouched when
delta is under the sampled threshold, and the feed fetch occurs
exactly when delta is at least the threshold. -/
theorem c5_gating (r : ℚ) (h0 : 0 ≤ r) (h1 : r < 1) (ext : ExtLib)
    (envs : Nat → EntryEnv) (fetchRes : Except Unit (Option (List FeedEntry)))
    (currentTime : Int) (items : PostedItems) :
    minMinutes * 60 * 1000 ≤ getRandomInterval r ∧
    getRandomInterval r ≤ maxMinutes * 60 * 1000 ∧
    (currentTime - items.lastFetchTime < getRandomInterval r →
      processRSSFeed ext envs fetchRes currentTime (getRandomInterval r) items = [] ∧
      durable items
        (processRSSFeed ext envs fetchRes currentTime (getRandomInterval r) items) = items) ∧
    (getRandomInterval r ≤ currentTime - items.lastFetchTime →
      Event.feedFetch ∈
        processRSSFeed ext envs fetchRes currentTime (getRandomInterval r) items) := by
  refine ⟨getRandomInterval_lb r h0, getRandomInterval_ub r h1, ?_, ?_⟩
  · intro h
    simp [processRSSFeed, h, durable, lastSave]
  · intro h
    have hn : ¬ (currentTime - items.lastFetchTime < getRandomInterval r) := not_lt.mpr h
    rcases fetchRes with _ | fd
    · simp [processRSSFeed, hn]
    · rcases fd with _ | entries <;> simp [processRSSFeed, hn]

/-- Witness for c5_gating: sample 0 gives a 30-minute threshold, and a
trigger 1 millisecond after the last fetch is gated off. -/
theorem c5_gating_witness :
    ((0 : ℚ) ≤ 0 ∧ (0 : ℚ) < 1) ∧
    ((1 : Int) - (0 : Int) < getRandomInterval 0 ∧
      processRSSFeed extId (fun _ => envAllOk) (Except.error ()) 1 (getRandomInterval 0)
        ⟨[], 0⟩ = []) := by
  have hval : getRandomInterval 0 = 1800000 := by
    norm_num [getRandomInterval, minMinutes, maxMinutes]
  refine ⟨⟨le_refl 0, by norm_num⟩, ?_, ?_⟩
  · omega
  · exact ((c5_gating 0 (le_refl 0) (by norm_num) extId (fun _ => envAllOk)
      (Except.error ()) 1 ⟨[], 0⟩).2.2.1 (by simpa using hval ▸ (by omega : (1 : Int) - 0 < 1800000))).1

theorem runEntries_skip (ext : ExtLib) (envs : Nat → EntryEnv) (i : Nat)
    (e : FeedEntry) (rest : List FeedEntry) (guids : List String)
    (h : e.id ∈ guids) :
    runEntries ext envs i (e :: rest) guids = runEntries ext envs (i + 1) rest guids := by
  simp [runEntries, h]

theorem runEntries_cons (ext : ExtLib) (envs : Nat → EntryEnv) (i : Nat)
    (e : FeedEntry) (rest : List FeedEntry) (guids : List String)
    (h : e.id ∉ guids) :
    runEntries ext envs i (e :: rest) guids =
      ((processEntry ext (envs i) e).1 ++
        postToBluesky ext.decode e.title e.link (processEntry ext (envs i) e).2 (envs i) ++
        (runEntries ext envs (i + 1) rest (guids ++ [e.id])).1,
       (runEntries ext envs (i + 1) rest (guids ++ [e.id])).2) := by
  simp [runEntries, h]

theorem mem_runEntries_of_mem (ext : ExtLib) (envs : Nat → EntryEnv) :
    ∀ (es : List FeedEntry) (i : Nat) (guids : List String) (x : String),
      x ∈ guids → x ∈ (runEntries ext envs i es guids).2 := by
  intro es
  induction es with
  | nil => intro i g x hx; simpa [runEntries] using hx
  | cons e rest ih =>
    intro i g x hx
    by_cases hc : e.id ∈ g
    · rw [runEntries_skip ext envs i e rest g hc]
      exact ih _ _ _ hx
    · rw [runEntries_cons ext envs i e rest g hc]
      exact ih _ _ _ (List.mem_append_left _ hx)

theorem runEntries_mem_all (ext : ExtLib) (envs : Nat → EntryEnv) :
    ∀ (es : List FeedEntry) (i : Nat) (guids : List String) (e : FeedEntry),
      e ∈ es → e.id ∈ (runEntries ext envs i es guids).2 := by
  intro es
  induction es with
  | nil => intro i g e he; cases he
  | cons hd rest ih =>
    intro i g e he
    rcases List.mem_cons.mp he with rfl | hmem
    · by_cases hc : e.id ∈ g
      · rw [runEntries_skip ext envs i e rest g hc]
        exact mem_runEntries_of_mem ext envs rest (i + 1) g e.id hc
      · rw [runEntries_cons ext envs i e rest g hc]
        exact mem_runEntries_of_mem ext envs rest (i + 1) (g ++ [e.id]) e.id
          (List.mem_append_right _ (List.mem_singleton.mpr rfl))
    · by_cases hc : hd.id ∈ g
      · rw [runEntries_skip ext envs i hd rest g hc]
        exact ih _ _ _ hmem
      · rw [runEntries_cons ext envs i hd rest g hc]
        exact ih _ _ _ hmem

theorem uploadImageToBluesky_no_save (env : EntryEnv) :
    (uploadImageToBluesky env).1.filter isSave = [] := by
  unfold uploadImageToBluesky
  split_ifs <;> simp [isSave]

theorem postToBluesky_no_save (d : String → String) (title url : String)
    (thumb : Option String) (env : EntryEnv) :
    (postToBluesky d title url thumb env).filter isSave = [] := by
  unfold postToBluesky
  split_ifs <;> simp [isSave]

theorem processEntry_no_save (ext : ExtLib) (env : EntryEnv) (e : FeedEntry) :
    (processEntry ext env e).1.filter isSave = [] := by
  unfold processEntry
  rcases hs : env.scrape with _ | chain
  · simp [isSave]
  · by_cases hd : env.download <;>
      simp [hd, isSave, List.filter_append, uploadImageToBluesky_no_save]

theorem runEntries_no_save (ext : ExtLib) (envs : Nat → EntryEnv) :
    ∀ (es : List FeedEntry) (i : Nat) (guids : List String),
      (runEntries ext envs i es guids).1.filter isSave = [] := by
  intro es
  induction es with
  | nil => intro i g; simp [runEntries]
  | cons e rest ih =>
    intro i g
    by_cases hc : e.id ∈ g
    · rw [runEntries_skip ext envs i e rest g hc]
      exact ih _ _
    · rw [runEntries_cons ext envs i e rest g hc]
      simp [List.filter_append, processEntry_no_save, postToBluesky_no_save, ih]

theorem lastSave_append_save (l : List Event) (g : List String) (t : Int) :
    lastSave (l ++ [Event.save g t]) = some ⟨g, t⟩ := by
  induction l with
  | nil => simp [lastSave]
  | cons a l ih => cases a <;> simp [lastSave, ih]

theorem processRSSFeed_ok (ext : ExtLib) (envs : Nat → EntryEnv)
    (entries : List FeedEntry) (currentTime interval : Int) (items : PostedItems)
    (h : interval ≤ currentTime - items.lastFetchTime) :
    processRSSFeed ext envs (Except.ok (some entries)) currentTime interval items =
      Event.feedFetch :: (runEntries ext envs 0 entries items.guids).1 ++
        [Event.save (runEntries ext envs 0 entries items.guids).2 currentTime] := by
  unfold processRSSFeed
  rw [if_neg (not_lt.mpr h)]
  rfl

/-- Claim C1: an entry whose identifier is already stored is skipped
with no page fetch, no image work and no publish, and its identifier
is not appended again; and in the concrete scenario of a store holding
a1 and a feed returning a1 then a2, only a2 is processed and the
durable store ends as a1, a2. -/
theorem c1_dedup :
    (∀ (ext : ExtLib) (envs : Nat → EntryEnv) (i : Nat) (e : FeedEntry)
        (rest : List FeedEntry) (guids : List String),
      e.id ∈ guids →
      runEntries ext envs i (e :: rest) guids = runEntries ext envs (i + 1) rest guids) ∧
    processRSSFeed extId (fun _ => envAllOk) (Except.ok (some [entryA1, entryA2]))
        1800000 1800000 ⟨["a1"], 0⟩ =
      [Event.feedFetch, Event.pageFetch ("http://u2"), Event.imageDownload ("http://img"),
       Event.imageEncode, Event.uploadAttempt,
       Event.postAttempt ("t2") ("The Spinoff → t2") (some ("blob1")),
       Event.save ["a1", "a2"] 1800000] ∧
    durable ⟨["a1"], 0⟩
        (processRSSFeed extId (fun _ => envAllOk) (Except.ok (some [entryA1, entryA2]))
          1800000 1800000 ⟨["a1"], 0⟩) =
      ⟨["a1", "a2"], 1800000⟩ :=
  ⟨runEntries_skip, by decide, by decide⟩

/-- Witness for the universal part of c1_dedup at a concrete stored
identifier. -/
theorem c1_dedup_witness :
    ("a1" ∈ (["a1"] : List String)) ∧
    runEntries extId (fun _ => envAllOk) 0 (entryA1 :: []) ["a1"] =
      runEntries extId (fun _ => envAllOk) 1 [] ["a1"] :=
  ⟨by decide, c1_dedup.1 extId (fun _ => envAllOk) 0 entryA1 [] ["a1"] (by decide)⟩

/-- Claim C2 as stated is false: in a run that publishes the two fresh
entries a1 and a2, no save occurs between the publish of a1 and the
start of the processing of a2; the store is persisted only once, after
the loop. -/
theorem c2_counterexample :
    savedBeforeNextEntry false
      (processRSSFeed extId (fun _ => envAllOk) (Except.ok (some [entryA1, entryA2]))
        1800000 1800000 ⟨[], 0⟩) = false := by
  decide

/-- Claim C2, amended: identifiers are recorded in memory after each
publish, but the store is written to stable storage exactly once per
run, after the entry loop, as the last action of the run; a crash
mid-batch therefore loses every entry published during that run. -/
theorem c2_single_save (ext : ExtLib) (envs : Nat → EntryEnv)
    (entries : List FeedEntry) (currentTime interval : Int) (items : PostedItems)
    (h : interval ≤ currentTime - items.lastFetchTime) :
    (processRSSFeed ext envs (Except.ok (some entries)) currentTime interval items).filter
        isSave =
      [Event.save (runEntries ext envs 0 entries items.guids).2 currentTime] ∧
    (processRSSFeed ext envs (Except.ok (some entries)) currentTime interval items).getLast? =
      some (Event.save (runEntries ext envs 0 entries items.guids).2 currentTime) := by
  rw [processRSSFeed_ok ext envs entries currentTime interval items h]
  constructor
  · simp [List.filter_append, runEntries_no_save, isSave]
  · rw [show Event.feedFetch :: (runEntries ext envs 0 entries items.guids).1 ++
        [Event.save (runEntries ext envs 0 entries items.guids).2 currentTime] =
        (Event.feedFetch :: (runEntries ext envs 0 entries items.guids).1) ++
        [Event.save (runEntries ext envs 0 entries items.guids).2 currentTime] from rfl]
    exact List.getLast?_concat _

/-- Witness for c2_single_save on a one-entry feed. -/
theorem c2_single_save_witness :
    ((1800000 : Int) ≤ 1800000 - 0) ∧
    (processRSSFeed extId (fun _ => envAllOk) (Except.ok (some [entryA1]))
        1800000 1800000 ⟨[], 0⟩).filter isSave =
      [Event.save ["a1"] 1800000] := by
  refine ⟨by norm_num, ?_⟩
  have h := (c2_single_save extId (fun _ => envAllOk) [entryA1] 1800000 1800000 ⟨[], 0⟩
    (by norm_num)).1
  rw [h]
  decide

/-- Claim C6 as stated is false: with a feed of nine fresh entries the
run records all nine identifiers; there is no top-eight cap in the
source loop. -/
theorem c6_counterexample :
    ¬ ((durable ⟨[], 0⟩
        (processRSSFeed extId (fun _ => envAllOk) (Except.ok (some entries9))
          1800000 1800000 ⟨[], 0⟩)).guids.length ≤ 8) := by
  decide

/-- Claim C6, amended: the orchestrator iterates over every entry of
the fetched feed in feed order with no per-run cap; every fetched
entry ends the run with its identifier in the durable store. -/
theorem c6_all_entries (ext : ExtLib) (envs : Nat → EntryEnv)
    (entries : List FeedEntry) (currentTime interval : Int) (items : PostedItems)
    (h : interval ≤ currentTime - items.lastFetchTime) :
    ∀ e ∈ entries,
      e.id ∈ (durable items
        (processRSSFeed ext envs (Except.ok (some entries)) currentTime interval
          items)).guids := by
  intro e he
  rw [processRSSFeed_ok ext envs entries currentTime interval items h]
  have hd : durable items
      (Event.feedFetch :: (runEntries ext envs 0 entries items.guids).1 ++
        [Event.save (runEntries ext envs 0 entries items.guids).2 currentTime]) =
      ⟨(runEntries ext envs 0 entries items.guids).2, currentTime⟩ := by
    simp only [durable, lastSave, List.cons_append, List.append_eq]
    rw [lastSave_append_save]
    rfl
  rw [hd]
  exact runEntries_mem_all ext envs entries 0 items.guids e he

/-- Witness for c6_all_entries on a one-entry feed. -/
theorem c6_all_entries_witness :
    ((1800000 : Int) ≤ 1800000 - 0) ∧ entryA1 ∈ [entryA1] ∧
    entryA1.id ∈ (durable ⟨[], 0⟩
      (processRSSFeed extId (fun _ => envAllOk) (Except.ok (some [entryA1]))
        1800000 1800000 ⟨[], 0⟩)).guids :=
  ⟨by norm_num, by decide,
    c6_all_entries extId (fun _ => envAllOk) [entryA1] 1800000 1800000 ⟨[], 0⟩
      (by norm_num) entryA1 (by decide)⟩

/-- Claim C7: both the upload and the post follow the
retry-after-login pattern: the operation is attempted first with no
pre-emptive login; on failure exactly one login is performed and the
operation is retried exactly once; when the login itself fails the
retry does not happen; a second upload failure yields no blob
reference, so the entry carries no thumb into the post. -/
theorem c7_retry_after_login (env : EntryEnv) (d : String → String)
    (title url : String) (th : Option String) (ext : ExtLib) (e : FeedEntry) :
    (env.upload1 = true →
      uploadImageToBluesky env = ([Event.uploadAttempt], some env.blobRef)) ∧
    (env.upload1 = false → env.loginOk = true →
      uploadImageToBluesky env =
        ([Event.uploadAttempt, Event.login, Event.uploadAttempt],
          if env.upload2 then some env.blobRef else none)) ∧
    (env.upload1 = false → env.loginOk = false →
      uploadImageToBluesky env = ([Event.uploadAttempt, Event.login], none)) ∧
    (env.post1 = true →
      postToBluesky d title url th env =
        [Event.postAttempt (truncateTitle d title url.length)
          ("The Spinoff → " ++ truncateTitle d title url.length) th]) ∧
    (env.post1 = false → env.postLoginOk = true →
      postToBluesky d title url th env =
        [Event.postAttempt (truncateTitle d title url.length)
          ("The Spinoff → " ++ truncateTitle d title url.length) th,
         Event.login,
         Event.postAttempt (truncateTitle d title url.length)
          ("The Spinoff → " ++ truncateTitle d title url.length) th]) ∧
    (env.post1 = false → env.postLoginOk = false →
      postToBluesky d title url th env =
        [Event.postAttempt (truncateTitle d title url.length)
          ("The Spinoff → " ++ truncateTitle d title url.length) th,
         Event.login]) ∧
    (env.upload1 = false → env.upload2 = false → (processEntry ext env e).2 = none) := by
  refine ⟨?_, ?_, ?_, ?_, ?_, ?_, ?_⟩
  · intro h1
    simp [uploadImageToBluesky, h1]
  · intro h1 h2
    by_cases h3 : env.upload2 <;> simp [uploadImageToBluesky, h1, h2, h3]
  · intro h1 h2
    simp [uploadImageToBluesky, h1, h2]
  · intro h1
    simp [postToBluesky, h1]
  · intro h1 h2
    simp [postToBluesky, h1, h2]
  · intro h1 h2
    simp [postToBluesky, h1, h2]
  · intro h1 h2
    unfold processEntry
    rcases hs : env.scrape with _ | chain
    · rfl
    · by_cases hd : env.download <;>
        by_cases hl : env.loginOk <;>
        simp [hd, hl, uploadImageToBluesky, h1, h2]

/-- Witness for c7_retry_after_login: the first upload fails, the
login succeeds, the retried upload fails again, and no blob reference
is produced. -/
theorem c7_retry_after_login_witness :
    (envUploadFail.upload1 = false) ∧
    uploadImageToBluesky envUploadFail =
      ([Event.uploadAttempt, Event.login, Event.uploadAttempt], none) ∧
    (processEntry extId envUploadFail entryA1).2 = none := by
  have h := c7_retry_after_login envUploadFail (fun s => s) "t" "u" none extId entryA1
  refine ⟨rfl, ?_, h.2.2.2.2.2.2 rfl rfl⟩
  have h2 := h.2.1 rfl rfl
  simpa [envUploadFail] using h2

/-- Claim C8: a fresh entry that reaches the publish step has its
identifier recorded in the in-memory store no matter how the publish
attempts turn out (the environment is universally quantified, covering
success, retry success and double failure), and the run proceeds to
the remaining entries. -/
theorem c8_record_regardless (ext : ExtLib) (envs : Nat → EntryEnv) (i : Nat)
    (e : FeedEntry) (rest : List FeedEntry) (guids : List String)
    (h : e.id ∉ guids) :
    e.id ∈ (runEntries ext envs i (e :: rest) guids).2 ∧
    (runEntries ext envs i (e :: rest) guids).2 =
      (runEntries ext envs (i + 1) rest (guids ++ [e.id])).2 ∧
    (runEntries ext envs i (e :: rest) guids).1 =
      (processEntry ext (envs i) e).1 ++
        postToBluesky ext.decode e.title e.link (processEntry ext (envs i) e).2 (envs i) ++
        (runEntries ext envs (i + 1) rest (guids ++ [e.id])).1 := by
  have hc := runEntries_cons ext envs i e rest guids h
  refine ⟨?_, by rw [hc], by rw [hc]⟩
  rw [hc]
  exact mem_runEntries_of_mem ext envs rest (i + 1) (guids ++ [e.id]) e.id
    (List.mem_append_right _ (List.mem_singleton.mpr rfl))

/-- Witness for c8_record_regardless with an environment in which both
post attempts and the login of the post flow fail: the identifier is
recorded anyway. -/
theorem c8_record_regardless_witness :
    ("a1" ∉ ([] : List String)) ∧
    "a1" ∈ (runEntries extId (fun _ => envPostFail) 0 [entryA1] []).2 :=
  ⟨by decide,
    (c8_record_regardless extId (fun _ => envPostFail) 0 entryA1 [] [] (by decide)).1⟩

/-- Claim C9: when the page scrape throws, the entry contributes only
its failed page fetch, no image URL is selected and no thumb is
produced; the post is still attempted, carrying the truncated title as
its text and no thumb; and the run records the entry and continues
with the rest of the feed. -/
theorem c9_enrich_fail_soft (ext : ExtLib) (env : EntryEnv) (e : FeedEntry)
    (h : env.scrape = Except.error ()) :
    processEntry ext env e = ([Event.pageFetch e.link], none) ∧
    (env.post1 = true →
      postToBluesky ext.decode e.title e.link (processEntry ext env e).2 env =
        [Event.postAttempt (truncateTitle ext.decode e.title e.link.length)
          ("The Spinoff → " ++ truncateTitle ext.decode e.title e.link.length) none]) ∧
    (∀ (envs : Nat → EntryEnv) (i : Nat) (rest : List FeedEntry) (guids : List String),
      envs i = env → e.id ∉ guids →
      e.id ∈ (runEntries ext envs i (e :: rest) guids).2 ∧
      (runEntries ext envs i (e :: rest) guids).1 =
        [Event.pageFetch e.link] ++
          postToBluesky ext.decode e.title e.link none env ++
          (runEntries ext envs (i + 1) rest (guids ++ [e.id])).1) := by
  have hpe : processEntry ext env e = ([Event.pageFetch e.link], none) := by
    unfold processEntry
    rw [h]
  refine ⟨hpe, ?_, ?_⟩
  · intro h1
    rw [hpe]
    simp [postToBluesky, h1]
  · intro envs i rest guids henv hg
    have hc := runEntries_cons ext envs i e rest guids hg
    constructor
    · rw [hc]
      exact mem_runEntries_of_mem ext envs rest (i + 1) (guids ++ [e.id]) e.id
        (List.mem_append_right _ (List.mem_singleton.mpr rfl))
    · rw [hc, henv, hpe]

/-- Witness for c9_enrich_fail_soft: the scrape error environment
produces only the page fetch and no thumb. -/
theorem c9_enrich_fail_soft_witness :
    (envScrapeErr.scrape = Except.error ()) ∧
    processEntry extId envScrapeErr entryA1 = ([Event.pageFetch ("http://u1")], none) :=
  ⟨rfl, (c9_enrich_fail_soft extId envScrapeErr entryA1 rfl).1⟩

/-- Claim C10: when the feed fetch throws, or the parsed feed has no
items, the trace of a run that passed gating contains only the fetch
itself: no save occurs, the durable store keeps exactly its previous
identifier list and lastFetchTime, and the in-memory stamp is lost. -/
theorem c10_fetch_failure (ext : ExtLib) (envs : Nat → EntryEnv)
    (currentTime interval : Int) (items : PostedItems)
    (h : interval ≤ currentTime - items.lastFetchTime) :
    processRSSFeed ext envs (Except.error ()) currentTime interval items =
      [Event.feedFetch] ∧
    processRSSFeed ext envs (Except.ok none) currentTime interval items =
      [Event.feedFetch] ∧
    durable items
      (processRSSFeed ext envs (Except.error ()) currentTime interval items) = items ∧
    (durable items
      (processRSSFeed ext envs (Except.error ()) currentTime interval items)).lastFetchTime =
      items.lastFetchTime := by
  have hn : ¬ (currentTime - items.lastFetchTime < interval) := not_lt.mpr h
  refine ⟨?_, ?_, ?_, ?_⟩ <;> simp [processRSSFeed, hn, durable, lastSave]

/-- Witness for c10_fetch_failure at a concrete store. -/
theorem c10_fetch_failure_witness :
    ((1800000 : Int) ≤ 1800000 - 0) ∧
    processRSSFeed extId (fun _ => envAllOk) (Except.error ()) 1800000 1800000 ⟨["a1"], 0⟩ =
      [Event.feedFetch] ∧
    durable ⟨["a1"], 0⟩
      (processRSSFeed extId (fun _ => envAllOk) (Except.error ()) 1800000 1800000
        ⟨["a1"], 0⟩) = ⟨["a1"], 0⟩ := by
  have h := c10_fetch_failure extId (fun _ => envAllOk) 1800000 1800000 ⟨["a1"], 0⟩
    (by norm_num)
  exact ⟨by norm_num, h.1, h.2.2.1⟩
